import Mathlib

/-!
Shallow embedding of `gitfig/blobconfig.py` (package `gitfig`): a lockable
attribute-access configuration holder populated by merging files out of a
git repository tree, plus the repository handle with its fetch cooldown.

Python dictionaries are modelled as insertion-ordered association lists,
machine exceptions as an `Except PyErr` result, and wall-clock time as a
`Nat` (seconds) passed explicitly to the operations that call
`datetime.now()`.
-/

set_option autoImplicit false

namespace Gitfig

/-- Exceptions that `blobconfig.py` can raise.  `ConfigLockError` and
`ConfigReadError` are the module's own classes; `keyError` models Python's
built-in `KeyError` (raised by `dict.__getitem__` and by indexing the
remote-reference dictionary); `noRepoError` models the plain
`Exception('No git config repo...')` raised by `get_config`. -/
inductive PyErr where
  | configLockError (msg : String)
  | keyError (key : String)
  | configReadError (msg : String)
  | noRepoError (msg : String)
  deriving DecidableEq, Repr

/-- Python values stored in configuration dictionaries, reduced to what the
claims need.  `builtin s` stands for the objects `SECTION`, `sys` and `os`
that `mergeblob` seeds into the execution global namespace. -/
inductive PyVal where
  | int (n : Int)
  | str (s : String)
  | pyNone
  | builtin (s : String)
  deriving DecidableEq, Repr

/-- An insertion-ordered Python dictionary. -/
abbrev Dict (α : Type) := List (String × α)

/-- Lookup in an insertion-ordered dictionary (Python `d[k]` semantics on a
dict with unique keys: the first binding for `k` wins). -/
def lookupKV {α : Type} : Dict α → String → Option α
  | [], _ => none
  | (k', v') :: rest, k => if k' = k then some v' else lookupKV rest k

/-- Python `d[k] = v` on an insertion-ordered dictionary: overwrite the
value in place when the key is present, append at the end otherwise. -/
def assocSet {α : Type} : Dict α → String → α → Dict α
  | [], k, v => [(k, v)]
  | (k', v') :: rest, k, v =>
    if k' = k then (k, v) :: rest else (k', v') :: assocSet rest k v

/-- Python `d.update(other)`: set every binding of `other` into `d` in
order (later bindings win). -/
def dictUpdate {α : Type} (d upd : Dict α) : Dict α :=
  upd.foldl (fun acc p => assocSet acc p.1 p.2) d

/-- The class `ConfigHolder` (`blobconfig.py` lines 68–128): a named, lockable dict
subclass.  `_locked` is an int used as a boolean; we model it as `Bool`.
`BlobConfig` and `SECTION` add no state of their own. -/
structure ConfigHolder where
  name : String
  locked : Bool
  entries : Dict PyVal
  deriving DecidableEq, Repr

namespace ConfigHolder

/-- Constructor `ConfigHolder.__init__(init={}, name=None)`: the name defaults to the
lower-cased class name, the lock is always off at construction. -/
def init (initDict : Dict PyVal) (name : Option String) (clsName : String) : ConfigHolder :=
  { name := name.getD clsName, locked := false, entries := initDict }

/-- Python `key in self` on the underlying dict. -/
def hasKey (h : ConfigHolder) (k : String) : Bool :=
  (lookupKV h.entries k).isSome

/-- Method `ConfigHolder.__getitem__` / `__getattr__`: `dict.__getitem__`, raising
`KeyError` when the key is absent. -/
def getitem (h : ConfigHolder) (k : String) : Except PyErr PyVal :=
  match lookupKV h.entries k with
  | some v => .ok v
  | none => .error (.keyError k)

/-- Method `ConfigHolder.__setitem__` (= `__setattr__`, lines 96–99): raises
`ConfigLockError` when the holder is locked and the key is new; otherwise
stores/overwrites via `dict.__setitem__`.  An `.error` result leaves no new
holder: the raise happens before any mutation. -/
def setitem (h : ConfigHolder) (k : String) (v : PyVal) : Except PyErr ConfigHolder :=
  if h.locked && !h.hasKey k then
    .error (.configLockError "setting attribute on locked config holder")
  else
    .ok { h with entries := assocSet h.entries k v }

/-- Method `ConfigHolder.lock`. -/
def lock (h : ConfigHolder) : ConfigHolder := { h with locked := true }

/-- Method `ConfigHolder.unlock`. -/
def unlock (h : ConfigHolder) : ConfigHolder := { h with locked := false }

/-- Method `ConfigHolder.islocked`. -/
def islocked (h : ConfigHolder) : Bool := h.locked

/-- Method `ConfigHolder.copy` (lines 120–124): `ch = ConfigHolder(self)` builds a
fresh holder with a shallow copy of the entries (and the default name
`"configholder"`, since `name=None`), then locks it when the source is
locked. -/
def copy (h : ConfigHolder) : ConfigHolder :=
  let ch := init h.entries none "configholder"
  if h.islocked then ch.lock else ch

/-- Raw `dict.update` on a `ConfigHolder` (used by `get_config` and by
`read_blob` for YAML/JSON): CPython's `dict.update` uses the concrete dict
slot, bypassing the overridden `__setitem__`, hence no lock check. -/
def rawUpdate (h : ConfigHolder) (upd : Dict PyVal) : ConfigHolder :=
  { h with entries := dictUpdate h.entries upd }

end ConfigHolder

/-- Key lookup after `assocSet` at the same key finds the new value. -/
theorem lookupKV_assocSet_self {α : Type} (l : Dict α) (k : String) (v : α) :
    lookupKV (assocSet l k v) k = some v := by
  induction l with
  | nil => simp [assocSet, lookupKV]
  | cons p rest ih =>
    obtain ⟨k', v'⟩ := p
    by_cases hk : k' = k
    · simp [assocSet, hk, lookupKV]
    · simp [assocSet, hk, lookupKV, ih]

/-- C1.  `set(key, value)` (item or attribute write, `__setattr__` being an
alias of `__setitem__`): on a locked holder a new key raises
`ConfigLockError` and no mutation happens (the error result carries no
holder); an already-present key is overwritten regardless of the lock; on
an unlocked holder the write always succeeds. -/
theorem C1_setitem_lock_policy (h : ConfigHolder) (k : String) (v : PyVal) :
    (h.locked = true → h.hasKey k = false →
      h.setitem k v = .error (.configLockError "setting attribute on locked config holder")) ∧
    (h.hasKey k = true →
      h.setitem k v = .ok { h with entries := assocSet h.entries k v } ∧
        ∀ h', h.setitem k v = .ok h' → lookupKV h'.entries k = some v) ∧
    (h.locked = false →
      h.setitem k v = .ok { h with entries := assocSet h.entries k v }) := by
  refine ⟨fun hl hk => ?_, fun hk => ⟨?_, fun h' hh => ?_⟩, fun hl => ?_⟩
  · simp [ConfigHolder.setitem, hl, hk]
  · simp [ConfigHolder.setitem, hk]
  · simp [ConfigHolder.setitem, hk] at hh
    simp [← hh, lookupKV_assocSet_self]
  · simp [ConfigHolder.setitem, hl]

/-- Witness for C1 at a concrete locked holder: writing the absent key
`"b"` fails, overwriting the present key `"a"` succeeds. -/
theorem C1_setitem_lock_policy_witness :
    (({ name := "c", locked := true, entries := [("a", PyVal.int 1)] } : ConfigHolder).locked = true ∧
      ({ name := "c", locked := true, entries := [("a", PyVal.int 1)] } : ConfigHolder).hasKey "b" = false ∧
      ({ name := "c", locked := true, entries := [("a", PyVal.int 1)] } : ConfigHolder).setitem "b" (PyVal.int 2)
        = .error (.configLockError "setting attribute on locked config holder")) ∧
    (({ name := "c", locked := true, entries := [("a", PyVal.int 1)] } : ConfigHolder).hasKey "a" = true ∧
      ({ name := "c", locked := true, entries := [("a", PyVal.int 1)] } : ConfigHolder).setitem "a" (PyVal.int 7)
        = .ok { name := "c", locked := true, entries := [("a", PyVal.int 7)] }) := by
  refine ⟨⟨by decide, by decide, ?_⟩, ⟨by decide, ?_⟩⟩
  · exact (C1_setitem_lock_policy _ "b" (PyVal.int 2)).1 (by decide) (by decide)
  · have h := ((C1_setitem_lock_policy
      ({ name := "c", locked := true, entries := [("a", PyVal.int 1)] } : ConfigHolder)
      "a" (PyVal.int 7)).2.1 (by decide)).1
    simpa [assocSet] using h

/-! Repository handle (`RepoObject`, lines 139–170). -/

/-- Model of `tempfile.gettempdir()`: the system temporary-file root. -/
def tempRoot : String := "/tmp"

/-- Python `s.startswith(prefix)`. -/
def pyStartswith (s pre : String) : Bool :=
  pre.data.isPrefixOf s.data

/-- State of a `RepoObject`.  `repoDir` is `self._repo_dir`; `lastFetch` is
`self._last_fetch` in seconds; `fetchCount` counts how many times `sync`
ran its `remote.fetch()` loop (observation of the fetch side effect);
`disposable` is a ghost flag recording which branch of `__init__` ran:
`true` exactly when the repository was cloned into a fresh
`tempfile.mkdtemp()` directory. -/
structure RepoObject where
  repoDir : String
  disposable : Bool
  lastFetch : Nat
  branch : String
  fetchCount : Nat
  deriving DecidableEq, Repr

/-- Constructor `RepoObject.__init__(repo_path, branch)` at wall-clock instant `t0`:
when `git.Repo(repo_path)` succeeds (`isExistingRepo`), the handle keeps
the caller-supplied path; otherwise it clones into
`tempfile.mkdtemp()` = `tempRoot ++ "/" ++ tmpName`.  Either way
`_last_fetch` is set to `datetime.now()` even though no fetch ran, and no
fetch has been performed (`fetchCount = 0`; `clone_from` is a clone, not a
fetch of the remotes). -/
def RepoObject.init (repoPath : String) (isExistingRepo : Bool) (tmpName : String)
    (branch : String) (t0 : Nat) : RepoObject :=
  if isExistingRepo then
    { repoDir := repoPath, disposable := false, lastFetch := t0,
      branch := branch, fetchCount := 0 }
  else
    { repoDir := tempRoot ++ "/" ++ tmpName, disposable := true, lastFetch := t0,
      branch := branch, fetchCount := 0 }

/-- Method `RepoObject.sync` (lines 158–165) at wall-clock instant `now`: when at
least 20 seconds (`timedelta(seconds=20)`; the commented-out line suggests
5 minutes) have elapsed since `_last_fetch`, fetch every remote (counted as
one fetch round) and reset `_last_fetch`; otherwise do nothing. -/
def RepoObject.sync (r : RepoObject) (now : Nat) : RepoObject :=
  if r.lastFetch + 20 ≤ now then
    { r with fetchCount := r.fetchCount + 1, lastFetch := now }
  else r

/-- Method `RepoObject.cleanup` (lines 167–170): returns without removing anything
unless `self._repo_dir` starts with `tempfile.gettempdir()`; otherwise
`shutil.rmtree(self._repo_dir)`.  The value is `true` iff the directory is
removed. -/
def RepoObject.cleanupRemoves (r : RepoObject) : Bool :=
  pyStartswith r.repoDir tempRoot

/-- C2.  Two `sync()` calls less than 20 seconds apart perform at most one
fetch round; a `sync()` at least 20 seconds after the last fetch performs
exactly one more fetch round and resets the last-fetch timestamp. -/
theorem C2_sync_cooldown (r : RepoObject) (t1 t2 : Nat) :
    (t1 ≤ t2 → t2 < t1 + 20 →
      ((r.sync t1).sync t2).fetchCount ≤ r.fetchCount + 1) ∧
    (r.lastFetch + 20 ≤ t1 →
      (r.sync t1).fetchCount = r.fetchCount + 1 ∧ (r.sync t1).lastFetch = t1) := by
  constructor
  · intro _ h20
    by_cases h1 : r.lastFetch + 20 ≤ t1
    · have : ¬ t1 + 20 ≤ t2 := by omega
      simp [RepoObject.sync, h1, this]
    · simp only [RepoObject.sync, h1, if_false, if_neg h1]
      by_cases h2 : r.lastFetch + 20 ≤ t2 <;> simp [h2]
  · intro h1
    simp [RepoObject.sync, h1]

/-- Witness for C2: a handle whose last fetch was at time 0, synced at
t = 25 and again at t = 30. -/
theorem C2_sync_cooldown_witness :
    ((25 : Nat) ≤ 30 ∧ (30 : Nat) < 25 + 20 ∧
      ((({ repoDir := "/r", disposable := false, lastFetch := 0, branch := "master",
            fetchCount := 0 } : RepoObject).sync 25).sync 30).fetchCount ≤ 0 + 1) ∧
    (({ repoDir := "/r", disposable := false, lastFetch := 0, branch := "master",
          fetchCount := 0 } : RepoObject).lastFetch + 20 ≤ 25 ∧
      (({ repoDir := "/r", disposable := false, lastFetch := 0, branch := "master",
          fetchCount := 0 } : RepoObject).sync 25).fetchCount = 0 + 1 ∧
      (({ repoDir := "/r", disposable := false, lastFetch := 0, branch := "master",
          fetchCount := 0 } : RepoObject).sync 25).lastFetch = 25) := by
  refine ⟨⟨by decide, by decide, ?_⟩, by decide, ?_⟩
  · exact (C2_sync_cooldown _ 25 30).1 (by decide) (by decide)
  · exact (C2_sync_cooldown
      ({ repoDir := "/r", disposable := false, lastFetch := 0, branch := "master",
         fetchCount := 0 } : RepoObject) 25 30).2 (by decide)

/-- C10.  Construction records the construction instant as the last-fetch
time with no fetch performed, so any `sync()` strictly less than 20 seconds
after construction changes nothing (in particular fetches nothing). -/
theorem C10_init_records_now_no_fetch (repoPath : String) (isExistingRepo : Bool)
    (tmpName branch : String) (t0 t : Nat) :
    (RepoObject.init repoPath isExistingRepo tmpName branch t0).lastFetch = t0 ∧
    (RepoObject.init repoPath isExistingRepo tmpName branch t0).fetchCount = 0 ∧
    (t < t0 + 20 →
      (RepoObject.init repoPath isExistingRepo tmpName branch t0).sync t
        = RepoObject.init repoPath isExistingRepo tmpName branch t0) := by
  refine ⟨?_, ?_, fun ht => ?_⟩
  · cases isExistingRepo <;> simp [RepoObject.init]
  · cases isExistingRepo <;> simp [RepoObject.init]
  · have hlf : (RepoObject.init repoPath isExistingRepo tmpName branch t0).lastFetch = t0 := by
      cases isExistingRepo <;> simp [RepoObject.init]
    have : ¬ (RepoObject.init repoPath isExistingRepo tmpName branch t0).lastFetch + 20 ≤ t := by
      omega
    simp [RepoObject.sync, this]

/-- Witness for C10: a handle constructed at t₀ = 100 and synced at
t = 110 < 120. -/
theorem C10_init_records_now_no_fetch_witness :
    (RepoObject.init "/r" true "x" "master" 100).lastFetch = 100 ∧
    (RepoObject.init "/r" true "x" "master" 100).fetchCount = 0 ∧
    ((110 : Nat) < 100 + 20 ∧
      (RepoObject.init "/r" true "x" "master" 100).sync 110
        = RepoObject.init "/r" true "x" "master" 100) := by
  obtain ⟨h1, h2, h3⟩ := C10_init_records_now_no_fetch "/r" true "x" "master" 100 110
  exact ⟨h1, h2, by decide, h3 (by decide)⟩

/-- C5 counterexample.  A caller-supplied existing repository at
`"/tmp/myrepo"`: the handle is not disposable (no clone into a fresh
temporary directory happened), yet `cleanup()` removes the directory,
because the check is `startswith(tempfile.gettempdir())`, not
disposability. -/
theorem C5_counterexample :
    (RepoObject.init "/tmp/myrepo" true "x" "master" 0).disposable = false ∧
    (RepoObject.init "/tmp/myrepo" true "x" "master" 0).cleanupRemoves = true := by
  constructor
  · decide
  · show pyStartswith "/tmp/myrepo" tempRoot = true
    decide

/-- C5 (amended).  `cleanup()` removes the local directory iff its path
starts with the system temporary-file root.  Every disposable handle (clone
into `mkdtemp`) satisfies this and is removed; a caller-supplied path is
left intact iff it does not lie under the temporary root. -/
theorem C5_cleanup_under_temp_root (repoPath : String) (isExistingRepo : Bool)
    (tmpName branch : String) (t0 : Nat) :
    ((RepoObject.init repoPath isExistingRepo tmpName branch t0).cleanupRemoves = true ↔
      pyStartswith (RepoObject.init repoPath isExistingRepo tmpName branch t0).repoDir
        tempRoot = true) ∧
    ((RepoObject.init repoPath isExistingRepo tmpName branch t0).disposable = true →
      (RepoObject.init repoPath isExistingRepo tmpName branch t0).cleanupRemoves = true) ∧
    (isExistingRepo = true →
      (RepoObject.init repoPath isExistingRepo tmpName branch t0).disposable = false ∧
      ((RepoObject.init repoPath isExistingRepo tmpName branch t0).cleanupRemoves = false ↔
        pyStartswith repoPath tempRoot = false)) := by
  refine ⟨Iff.rfl, fun hd => ?_, fun he => ?_⟩
  · cases hex : isExistingRepo with
    | true => simp [RepoObject.init, hex] at hd
    | false =>
      show pyStartswith (RepoObject.init repoPath false tmpName branch t0).repoDir
        tempRoot = true
      have hrd : (RepoObject.init repoPath false tmpName branch t0).repoDir
          = tempRoot ++ "/" ++ tmpName := by
        simp [RepoObject.init]
      rw [hrd]
      unfold pyStartswith
      rw [ List.isPrefixOf_iff_prefix]
      have h1 : tempRoot.data <+: (tempRoot ++ "/").data := by decide
      have h2 : (tempRoot ++ "/").data <+: (tempRoot ++ "/" ++ tmpName).data := by
        rw [String.data_append]
        exact List.prefix_append _ _
      exact h1.trans h2
  · subst he
    exact ⟨by simp [RepoObject.init], by simp [RepoObject.init, RepoObject.cleanupRemoves]⟩

/-- Witness for C5 (amended): a disposable clone into `/tmp/gitfig123` is
removed, and a caller-supplied `/home/user/repo` is left intact. -/
theorem C5_cleanup_under_temp_root_witness :
    ((RepoObject.init "ssh://host/repo" false "gitfig123" "master" 0).disposable = true ∧
      (RepoObject.init "ssh://host/repo" false "gitfig123" "master" 0).cleanupRemoves = true) ∧
    ((true : Bool) = true ∧
      (RepoObject.init "/home/user/repo" true "x" "master" 0).disposable = false ∧
      (RepoObject.init "/home/user/repo" true "x" "master" 0).cleanupRemoves = false) := by
  refine ⟨⟨by decide, ?_⟩, by decide, ?_, ?_⟩
  · exact (C5_cleanup_under_temp_root "ssh://host/repo" false "gitfig123" "master" 0).2.1
      (by decide)
  · exact ((C5_cleanup_under_temp_root "/home/user/repo" true "x" "master" 0).2.2 rfl).1
  · exact ((C5_cleanup_under_temp_root "/home/user/repo" true "x" "master" 0).2.2 rfl).2.mpr
      (by decide)

/-! Blob reading and tree merging (lines 47–60 and 185–213). -/

/-- Index of the last occurrence of `c` in `l` (Python `str.rfind`,
returning `none` instead of `-1`). -/
def lastIndexOf (l : List Char) (c : Char) : Option Nat :=
  ((l.enum.filter (fun p => p.2 = c)).map (fun p => p.1)).getLast?

/-- The extension part of `os.path.splitext(p)`: the text from the last
`'.'` of the final path component, provided some non-dot character stands
strictly between the last `'/'` and that dot (so leading dots of the
basename never start an extension). -/
def splitextExt (p : String) : String :=
  let cs := p.data
  let sepIndex : Int := match lastIndexOf cs '/' with | some i => (i : Int) | none => -1
  let dotIndex : Int := match lastIndexOf cs '.' with | some i => (i : Int) | none => -1
  if sepIndex < dotIndex then
    let base := (cs.drop (sepIndex + 1).toNat).take (dotIndex - sepIndex - 1).toNat
    if base.any (fun ch => ch ≠ '.') then String.mk (cs.drop dotIndex.toNat) else ""
  else ""

/-- A blob (file entry).  `name` is `blob.name`; `parse` abstracts what
reading `blob.data_stream` yields: the top-level key/value bindings the
file produces (for `.py`/`.conf` the assignments the `exec` makes into the
local namespace, for YAML/JSON the parsed top-level mapping), or an error
when reading/parsing/executing raises. -/
structure Blob where
  name : String
  parse : Except Unit (Dict PyVal)
  deriving Repr

/-- Predicate `blob_readable(blob)` (lines 47–49). -/
def blob_readable (b : Blob) : Bool :=
  [".py", ".conf", ".yaml", ".yml", ".json"].contains (splitextExt b.name)

/-- Function `read_blob(blob, glbl, loc)` (lines 51–60), acting on the local
namespace `loc` (the configuration holder's dict): dispatch on extension;
for recognized extensions apply the blob's bindings to `loc` (`exec` into
`loc`, or `loc.update(parsed)`), propagating any exception; for any other
extension do nothing. -/
def read_blob (b : Blob) (loc : Dict PyVal) : Except Unit (Dict PyVal) :=
  let ext := splitextExt b.name
  if ext ∈ [".py", ".conf"] then
    match b.parse with
    | .ok kvs => .ok (dictUpdate loc kvs)
    | .error e => .error e
  else if ext ∈ [".yaml", ".yml"] then
    match b.parse with
    | .ok kvs => .ok (dictUpdate loc kvs)
    | .error e => .error e
  else if ext ∈ [".json"] then
    match b.parse with
    | .ok kvs => .ok (dictUpdate loc kvs)
    | .error e => .error e
  else .ok loc

/-- Python truthiness of a dict: non-empty. -/
def pyTruthyDict {α : Type} (d : Dict α) : Bool := !d.isEmpty

/-- The three bindings `mergeblob` seeds into the execution global
namespace before reading: `gb["SECTION"]`, `gb["sys"]`, `gb["os"]`. -/
def seedGlobals (gb : Dict PyVal) : Dict PyVal :=
  assocSet (assocSet (assocSet gb "SECTION" (PyVal.builtin "SECTION"))
    "sys" (PyVal.builtin "sys")) "os" (PyVal.builtin "os")

/-- Method `BlobConfig.mergeblob(blob, globalspace)` (lines 201–213).
`gb = globalspace or {}`: a truthy (non-empty) caller dict is used — and
mutated — in place; a falsy one (`None` or empty) is replaced by a fresh
temporary dict, leaving the caller's dict untouched.  The three seeds are
written into `gb`, then `read_blob` runs under a bare `try/except` that
converts any exception into a `warnings.warn` call, so `mergeblob` itself
never raises (the `Except PyErr` result is always `.ok`).

The result is `(holder, caller-visible globalspace after the call,
number of warnings emitted)`. -/
def mergeblob (cfg : ConfigHolder) (b : Blob) (globalspace : Option (Dict PyVal)) :
    Except PyErr (ConfigHolder × Option (Dict PyVal) × Nat) :=
  match globalspace with
  | some d =>
    if pyTruthyDict d then
      let gb := seedGlobals d
      match read_blob b cfg.entries with
      | .ok newEntries => .ok ({ cfg with entries := newEntries }, some gb, 0)
      | .error _ => .ok (cfg, some gb, 1)
    else
      match read_blob b cfg.entries with
      | .ok newEntries => .ok ({ cfg with entries := newEntries }, some d, 0)
      | .error _ => .ok (cfg, some d, 1)
  | none =>
    match read_blob b cfg.entries with
    | .ok newEntries => .ok ({ cfg with entries := newEntries }, none, 0)
    | .error _ => .ok (cfg, none, 1)

/-- A git tree entry as yielded by `tree.traverse()`: a blob with its full
path, or a subtree with its full path and children. -/
inductive GitTree where
  | blob (path : String) (b : Blob)
  | tree (path : String) (children : List GitTree)
  deriving Repr

mutual

/-- Model of `tree.traverse()`: every descendant of the node, depth-first, the node
itself excluded (a blob has no descendants). -/
def GitTree.traverse : GitTree → List GitTree
  | .blob _ _ => []
  | .tree _ cs => traverseList cs

/-- Depth-first flattening of a forest: each root followed by its
descendants. -/
def traverseList : List GitTree → List GitTree
  | [] => []
  | t :: ts => t :: t.traverse ++ traverseList ts

end

/-- The full path of a tree entry (`item.path`). -/
def GitTree.path : GitTree → String
  | .blob p _ => p
  | .tree p _ => p

/-- The body of `BlobConfig.mergetree` (lines 196–199) over an item list:
`for item in tree.traverse(): if item.type == 'blob' and
blob_readable(item): self.mergeblob(item, globalspace)`, threading the
holder, the globalspace and the warning count. -/
def mergeItems (items : List GitTree) (cfg : ConfigHolder)
    (gs : Option (Dict PyVal)) (w : Nat) :
    Except PyErr (ConfigHolder × Option (Dict PyVal) × Nat) :=
  match items with
  | [] => .ok (cfg, gs, w)
  | .blob _ b :: rest =>
    if blob_readable b then
      match mergeblob cfg b gs with
      | .ok (cfg', gs', w') => mergeItems rest cfg' gs' (w + w')
      | .error e => .error e
    else mergeItems rest cfg gs w
  | .tree _ _ :: rest => mergeItems rest cfg gs w

/-- Method `BlobConfig.mergetree(tree, globalspace)`. -/
def mergetree (cfg : ConfigHolder) (t : GitTree) (gs : Option (Dict PyVal)) :
    Except PyErr (ConfigHolder × Option (Dict PyVal) × Nat) :=
  mergeItems t.traverse cfg gs 0

/-- Function `get_pathname(basename)` (lines 62–65): a list is joined with the path
separator; `os.path.expandvars` substitutes environment variables and is
modelled as the identity substitution (the claims quantify over the
already-expanded path). -/
def get_pathname : List String ⊕ String → String
  | .inl parts => String.intercalate "/" parts
  | .inr s => s

/-- The loop of `BlobConfig.sync_config` (lines 189–194) over the items of
the commit tree's traversal: every item whose `path` equals `fpath` is
merged — a blob through `mergeblob`, a subtree through `mergetree` on that
subtree's own traversal. -/
def syncItems (fpath : String) (items : List GitTree) (cfg : ConfigHolder)
    (gs : Option (Dict PyVal)) (w : Nat) :
    Except PyErr (ConfigHolder × Option (Dict PyVal) × Nat) :=
  match items with
  | [] => .ok (cfg, gs, w)
  | .blob p b :: rest =>
    if p = fpath then
      match mergeblob cfg b gs with
      | .ok (cfg', gs', w') => syncItems fpath rest cfg' gs' (w + w')
      | .error e => .error e
    else syncItems fpath rest cfg gs w
  | .tree p cs :: rest =>
    if p = fpath then
      match mergeItems (traverseList cs) cfg gs 0 with
      | .ok (cfg', gs', w') => syncItems fpath rest cfg' gs' (w + w')
      | .error e => .error e
    else syncItems fpath rest cfg gs w

/-- Method `RepoObject.get_ref(branch)` (lines 153–156): build the dictionary
`{r.remote_head: r for r in refs}` over the remote references and index it
with `branch`; a missing branch raises `KeyError`. -/
def get_ref (refs : Dict GitTree) (branch : String) : Except PyErr GitTree :=
  match lookupKV (refs.foldl (fun d p => assocSet d p.1 p.2) []) branch with
  | some t => .ok t
  | none => .error (.keyError branch)

/-- Method `BlobConfig.sync_config(fname, globalspace)` (lines 185–194): expand
the path, resolve the branch's commit tree among the remote references,
and merge every matching item of its traversal.  No code path raises for a
path that matches nothing: the loop simply finds no item (the
`ConfigReadError` raises at lines 174–176 of the source are commented
out). -/
def sync_config (cfg : ConfigHolder) (refs : Dict GitTree) (branch : String)
    (fname : List String ⊕ String) (gs : Option (Dict PyVal)) :
    Except PyErr (ConfigHolder × Option (Dict PyVal) × Nat) := do
  let fpath := get_pathname fname
  let tree ← get_ref refs branch
  syncItems fpath tree.traverse cfg gs 0

/-- Key lookup after `assocSet` at a different key is unchanged. -/
theorem lookupKV_assocSet_ne {α : Type} (l : Dict α) {k k' : String} (v : α)
    (h : k' ≠ k) : lookupKV (assocSet l k' v) k = lookupKV l k := by
  induction l with
  | nil => simp [assocSet, lookupKV, h]
  | cons p rest ih =>
    obtain ⟨k₀, v₀⟩ := p
    by_cases hk : k₀ = k'
    · subst hk
      simp [assocSet, lookupKV, h]
    · by_cases hk2 : k₀ = k
      · subst hk2
        simp [assocSet, hk, lookupKV]
      · simp [assocSet, hk, lookupKV, hk2, ih]

/-- On a blob with a recognized extension whose content fails to read,
`read_blob` propagates the exception whatever the local namespace is. -/
theorem read_blob_error {b : Blob} (hr : blob_readable b = true)
    (hp : b.parse = .error ()) (loc : Dict PyVal) : read_blob b loc = .error () := by
  unfold blob_readable at hr
  have hmem : splitextExt b.name ∈ [".py", ".conf", ".yaml", ".yml", ".json"] := by
    simpa using hr
  simp only [List.mem_cons, List.mem_singleton, List.not_mem_nil, or_false] at hmem
  rcases hmem with h | h | h | h | h <;> simp [read_blob, h, hp]

/-- The caller-visible `globalspace` after a `mergeblob` call: a truthy
(non-empty) supplied dict was mutated in place by the seeding, a falsy one
was not touched. -/
def gsAfter (gs : Option (Dict PyVal)) : Option (Dict PyVal) :=
  match gs with
  | some d => if pyTruthyDict d then some (seedGlobals d) else some d
  | none => none

/-- Totality of `mergeblob`: it never raises: the bare `except:` converts every reading
failure into a warning. -/
theorem mergeblob_ok (cfg : ConfigHolder) (b : Blob) (gs : Option (Dict PyVal)) :
    ∃ r, mergeblob cfg b gs = .ok r := by
  unfold mergeblob
  cases gs with
  | none => cases read_blob b cfg.entries <;> simp
  | some d =>
    by_cases ht : pyTruthyDict d <;>
      [skip; skip] <;> cases read_blob b cfg.entries <;> simp [ht]

/-- Behaviour of `mergeblob` on a readable blob whose content fails to read: one
warning, holder unchanged, only the globalspace seeding is visible. -/
theorem mergeblob_bad (cfg : ConfigHolder) {b : Blob} (gs : Option (Dict PyVal))
    (hr : blob_readable b = true) (hp : b.parse = .error ()) :
    mergeblob cfg b gs = .ok (cfg, gsAfter gs, 1) := by
  unfold mergeblob
  cases gs with
  | none => simp [read_blob_error hr hp, gsAfter]
  | some d =>
    by_cases ht : pyTruthyDict d <;> simp [ht, read_blob_error hr hp, gsAfter]

/-- The `mergetree` loop never raises. -/
theorem mergeItems_ok (items : List GitTree) (cfg : ConfigHolder)
    (gs : Option (Dict PyVal)) (w : Nat) :
    ∃ r, mergeItems items cfg gs w = .ok r := by
  induction items generalizing cfg gs w with
  | nil => exact ⟨(cfg, gs, w), rfl⟩
  | cons item rest ih =>
    cases item with
    | tree p cs => simpa [mergeItems] using ih cfg gs w
    | blob p b =>
      by_cases hb : blob_readable b
      · obtain ⟨⟨c', g', w'⟩, hm⟩ := mergeblob_ok cfg b gs
        simpa [mergeItems, hb, hm] using ih c' g' (w + w')
      · simpa [mergeItems, hb] using ih cfg gs w

/-- C4 counterexample.  The single-entry path does not raise: `mergeblob`
on the malformed readable blob `bad.yaml` returns normally, leaving the
holder unchanged and emitting one warning, because its bare `except:`
swallows the read error. -/
theorem C4_counterexample :
    mergeblob (ConfigHolder.init [] none "blobconfig")
        { name := "bad.yaml", parse := .error () } none
      = .ok (ConfigHolder.init [] none "blobconfig", none, 1) := by
  rfl

/-- C4 (amended).  Both paths swallow per-entry failures: `mergeblob` on an
unreadable/malformed entry logs a warning, leaves the holder unchanged and
returns normally instead of raising; inside a directory traversal the same
entry is likewise skipped with a warning and the loop continues with the
sibling entries, and the traversal never propagates an exception. -/
theorem C4_merge_failure_policy (cfg : ConfigHolder) (gs : Option (Dict PyVal))
    {b : Blob} (p : String) (rest : List GitTree) (w : Nat)
    (hr : blob_readable b = true) (hp : b.parse = .error ()) :
    mergeblob cfg b gs = .ok (cfg, gsAfter gs, 1) ∧
    mergeItems (GitTree.blob p b :: rest) cfg gs w
      = mergeItems rest cfg (gsAfter gs) (w + 1) ∧
    (∀ items cfg' gs' w', ∃ r, mergeItems items cfg' gs' w' = .ok r) := by
  refine ⟨mergeblob_bad cfg gs hr hp, ?_, fun items cfg' gs' w' => mergeItems_ok _ _ _ _⟩
  simp [mergeItems, hr, mergeblob_bad cfg gs hr hp]

/-- Witness for C4 at the malformed blob `bad.yaml` with a sibling
`good.json`: the bad entry is skipped with one warning and the sibling is
still merged. -/
theorem C4_merge_failure_policy_witness :
    (blob_readable { name := "bad.yaml", parse := .error () } = true ∧
      Blob.parse { name := "bad.yaml", parse := .error () } = .error ()) ∧
    mergeItems
        [GitTree.blob "d/bad.yaml" { name := "bad.yaml", parse := .error () },
         GitTree.blob "d/good.json" { name := "good.json", parse := .ok [("x", PyVal.int 2)] }]
        (ConfigHolder.init [] none "blobconfig") none 0
      = .ok ({ name := "blobconfig", locked := false, entries := [("x", PyVal.int 2)] },
          none, 1) := by
  refine ⟨⟨by decide, rfl⟩, ?_⟩
  have h := (C4_merge_failure_policy (ConfigHolder.init [] none "blobconfig") none
    (b := { name := "bad.yaml", parse := .error () })
    "d/bad.yaml"
    [GitTree.blob "d/good.json" { name := "good.json", parse := .ok [("x", PyVal.int 2)] }]
    0 (by decide) rfl).2.1
  rw [h]
  rfl

/-- No item of the traversal matches the requested path: the
`sync_config` loop merges nothing and finishes normally. -/
theorem syncItems_no_match (fpath : String) (items : List GitTree)
    (cfg : ConfigHolder) (gs : Option (Dict PyVal)) (w : Nat)
    (h : ∀ item ∈ items, item.path ≠ fpath) :
    syncItems fpath items cfg gs w = .ok (cfg, gs, w) := by
  induction items with
  | nil => rfl
  | cons item rest ih =>
    have hhd : item.path ≠ fpath := h item (List.mem_cons_self _ _)
    have htl : ∀ i ∈ rest, GitTree.path i ≠ fpath := fun i hi => h i (List.mem_cons_of_mem _ hi)
    cases item with
    | blob p b =>
      have : p ≠ fpath := hhd
      simp [syncItems, this, ih htl]
    | tree p cs =>
      have : p ≠ fpath := hhd
      simp [syncItems, this, ih htl]

/-- C3 counterexample.  Requesting `missing.yaml` against a commit tree
that only holds `a.yaml`: `sync_config` returns normally (`.ok`) with the
holder unchanged — no `PathNotFound`-style error is raised (the
`ConfigReadError` raises in the source are commented out, and no
`PathNotFound` exception exists in the module). -/
theorem C3_counterexample :
    sync_config (ConfigHolder.init [] none "blobconfig")
        [("master", GitTree.tree ""
          [GitTree.blob "a.yaml" { name := "a.yaml", parse := .ok [("x", PyVal.int 1)] }])]
        "master" (Sum.inr "missing.yaml") none
      = .ok (ConfigHolder.init [] none "blobconfig", none, 0) := by
  rfl

/-- C3 (amended).  When the requested path (after expansion) matches no
item of the resolved commit tree's traversal, `sync_config` does not fail:
it returns normally with the holder, the globalspace and the warning count
untouched. -/
theorem C3_missing_path_returns_normally (cfg : ConfigHolder) (refs : Dict GitTree)
    (branch : String) (fname : List String ⊕ String) (gs : Option (Dict PyVal))
    (tree : GitTree) (href : get_ref refs branch = .ok tree)
    (hmiss : ∀ item ∈ tree.traverse, item.path ≠ get_pathname fname) :
    sync_config cfg refs branch fname gs = .ok (cfg, gs, 0) := by
  unfold sync_config
  rw [href]
  show syncItems (get_pathname fname) tree.traverse cfg gs 0 = .ok (cfg, gs, 0)
  exact syncItems_no_match _ _ _ _ _ hmiss

/-- Witness for C3 (amended) at the concrete one-blob tree and the absent
path `missing.yaml`. -/
theorem C3_missing_path_returns_normally_witness :
    (get_ref
        [("master", GitTree.tree ""
          [GitTree.blob "a.yaml" { name := "a.yaml", parse := .ok [] }])] "master"
      = .ok (GitTree.tree ""
          [GitTree.blob "a.yaml" { name := "a.yaml", parse := .ok [] }])) ∧
    sync_config ({ name := "c", locked := false, entries := [("k", PyVal.int 3)] })
        [("master", GitTree.tree ""
          [GitTree.blob "a.yaml" { name := "a.yaml", parse := .ok [] }])]
        "master" (Sum.inr "missing.yaml") none
      = .ok ({ name := "c", locked := false, entries := [("k", PyVal.int 3)] }, none, 0) := by
  refine ⟨rfl, ?_⟩
  refine C3_missing_path_returns_normally _ _ _ _ _ _ rfl ?_
  intro item hitem
  have : item = GitTree.blob "a.yaml" { name := "a.yaml", parse := .ok [] } := by
    simpa [GitTree.traverse, traverseList] using hitem
  subst this
  decide

/-- C9 counterexample.  A caller-supplied *empty* dictionary is falsy, so
`gb = globalspace or {}` replaces it with a fresh dict: after the call the
caller's dictionary is still empty — no `SECTION`, `sys` or `os` binding
was inserted into it. -/
theorem C9_counterexample :
    mergeblob (ConfigHolder.init [] none "blobconfig")
        { name := "a.yaml", parse := .ok [("x", PyVal.int 1)] } (some [])
      = .ok ({ name := "blobconfig", locked := false, entries := [("x", PyVal.int 1)] },
          some [], 0) ∧
    lookupKV ([] : Dict PyVal) "SECTION" = none := by
  exact ⟨rfl, rfl⟩

/-- C9 (amended).  For every *non-empty* caller-supplied `globalspace`
dictionary, `mergeblob` mutates it in place, inserting or overwriting the
keys `SECTION`, `sys` and `os`, and the bindings remain visible to the
caller after the call returns. -/
theorem C9_globalspace_seeding (cfg : ConfigHolder) (b : Blob) (d : Dict PyVal)
    (hd : d ≠ []) :
    (∃ c' w, mergeblob cfg b (some d) = .ok (c', some (seedGlobals d), w)) ∧
    lookupKV (seedGlobals d) "SECTION" = some (PyVal.builtin "SECTION") ∧
    lookupKV (seedGlobals d) "sys" = some (PyVal.builtin "sys") ∧
    lookupKV (seedGlobals d) "os" = some (PyVal.builtin "os") := by
  have ht : pyTruthyDict d = true := by
    simpa [pyTruthyDict] using hd
  refine ⟨?_, ?_, ?_, ?_⟩
  · unfold mergeblob
    cases hrb : read_blob b cfg.entries with
    | ok newEntries => exact ⟨{ cfg with entries := newEntries }, 0, by simp [ht, hrb]⟩
    | error e => exact ⟨cfg, 1, by simp [ht, hrb]⟩
  · unfold seedGlobals
    rw [lookupKV_assocSet_ne _ _ (by decide), lookupKV_assocSet_ne _ _ (by decide)]
    exact lookupKV_assocSet_self _ _ _
  · unfold seedGlobals
    rw [lookupKV_assocSet_ne _ _ (by decide)]
    exact lookupKV_assocSet_self _ _ _
  · exact lookupKV_assocSet_self _ _ _

/-- Witness for C9 (amended) at a one-entry caller dictionary. -/
theorem C9_globalspace_seeding_witness :
    ([("k", PyVal.int 0)] : Dict PyVal) ≠ [] ∧
    ((∃ c' w, mergeblob (ConfigHolder.init [] none "blobconfig")
        { name := "a.yaml", parse := .ok [] } (some [("k", PyVal.int 0)])
        = .ok (c', some (seedGlobals [("k", PyVal.int 0)]), w)) ∧
      lookupKV (seedGlobals [("k", PyVal.int 0)]) "SECTION"
        = some (PyVal.builtin "SECTION") ∧
      lookupKV (seedGlobals [("k", PyVal.int 0)]) "sys" = some (PyVal.builtin "sys") ∧
      lookupKV (seedGlobals [("k", PyVal.int 0)]) "os" = some (PyVal.builtin "os")) := by
  exact ⟨by decide,
    C9_globalspace_seeding (ConfigHolder.init [] none "blobconfig")
      { name := "a.yaml", parse := .ok [] } [("k", PyVal.int 0)] (by decide)⟩

/-! Top-level entry points (`check_config`, `get_config`, lines 216–247). -/

/-- The methods callable on a `BlobConfig` instance: the ones defined by
`BlobConfig` (lines 178–213) and by `ConfigHolder` (lines 111–127).
Attribute lookup for any other name falls through
`__getattr__ = __getitem__` into the underlying dict.  Note `mergefile` is
not among them. -/
def blobConfigMethods : List String :=
  ["set_repo", "get_dynamic", "sync_config", "mergetree", "mergeblob",
   "lock", "unlock", "islocked", "copy", "add_section"]

/-- The result of a successful attribute lookup on a `BlobConfig`. -/
inductive Attr where
  | boundMethod (m : String)
  | value (v : PyVal)
  deriving Repr

/-- Python attribute lookup on a `BlobConfig` instance: a class method when
the name is one, otherwise `__getattr__ = __getitem__` on the dict,
raising `KeyError` when the key is absent too. -/
def ConfigHolder.getattr (h : ConfigHolder) (a : String) : Except PyErr Attr :=
  if blobConfigMethods.contains a then .ok (.boundMethod a)
  else match lookupKV h.entries a with
    | some v => .ok (.value v)
    | none => .error (.keyError a)

/-- Function `check_config(fname)` (lines 216–226): expands the path, builds an
empty `BlobConfig` and evaluates `cf.mergefile(fname)`.  `BlobConfig`
defines no method `mergefile`, so the attribute lookup falls through
`__getattr__ = __getitem__` on the empty holder.  Were the lookup to
produce a callable, the call's truthiness would select between `bool(cf)`
and `False`; the lookup fails first. -/
def check_config (fname : List String ⊕ String) : Except PyErr Bool := do
  let _fpath := get_pathname fname
  let cf := ConfigHolder.init [] none "blobconfig"
  let _callee ← cf.getattr "mergefile"
  .ok (pyTruthyDict cf.entries)

/-- Function `get_config(fname, branch, repo_path, initdict, globalspace, cleanup,
**kwargs)` (lines 228–247).  `envRepoPath` is
`os.environ.get('GITFIG_REPO_PATH')`; `isExistingRepo`, `tmpName` and `t0`
feed the `RepoObject` construction; `refs` are the remote references of
the repository.  The result carries the populated holder, the
caller-visible globalspace, the warning count, and whether the cleanup
removed the working directory. -/
def get_config (fname : List String ⊕ String) (branch : String)
    (repoPath envRepoPath : Option String)
    (initdict : Option (Dict PyVal)) (kwargs : Dict PyVal)
    (globalspace : Option (Dict PyVal)) (cleanup : Bool)
    (isExistingRepo : Bool) (tmpName : String) (refs : Dict GitTree) (t0 : Nat) :
    Except PyErr (ConfigHolder × Option (Dict PyVal) × Nat × Bool) := do
  let rp ← match repoPath with
    | some p => Except.ok p
    | none =>
      match envRepoPath with
      | some p => Except.ok p
      | none => Except.error (PyErr.noRepoError "No git config repo...")
  let cf := ConfigHolder.init [] none "blobconfig"
  let cf := match initdict with
    | some d => if pyTruthyDict d then cf.rawUpdate d else cf
    | none => cf
  let cf := cf.rawUpdate kwargs
  let repo := RepoObject.init rp isExistingRepo tmpName branch t0
  let (cf, gs, w) ← sync_config cf refs branch fname globalspace
  let removed := if cleanup then repo.cleanupRemoves else false
  .ok (cf, gs, w, removed)

/-- C6.  With no explicit repository location and the `GITFIG_REPO_PATH`
environment variable unset, `get_config` fails with the
`Exception('No git config repo...')` raise — whatever the repository, its
references or any other argument hold, so the failure happens before any
repository access. -/
theorem C6_no_repo_source (fname : List String ⊕ String) (branch : String)
    (initdict : Option (Dict PyVal)) (kwargs : Dict PyVal)
    (globalspace : Option (Dict PyVal)) (cleanup : Bool)
    (isExistingRepo : Bool) (tmpName : String) (refs : Dict GitTree) (t0 : Nat) :
    get_config fname branch none none initdict kwargs globalspace cleanup
        isExistingRepo tmpName refs t0
      = .error (PyErr.noRepoError "No git config repo...") := by
  rfl

/-- C7.  `check_config` never returns a boolean: for every input it raises
`KeyError('mergefile')`, because `cf.mergefile` resolves through
`__getattr__ = __getitem__` on a holder that has no such key and
`BlobConfig` defines no such method.  This contradicts its own docstring
(`check_config(filename) -> bool`) and the spec. -/
theorem C7_check_config_always_raises (fname : List String ⊕ String) :
    check_config fname = .error (PyErr.keyError "mergefile") := by
  rfl

/-! Object identity for `copy` (C8).

`ConfigHolder(self)` allocates a fresh dict object, so a holder and its
copy occupy distinct heap cells.  We model the heap as a list of holders
addressed by allocation index; every mutating method (`__setitem__`,
`__delitem__`, `lock`, `unlock`, `update`) rewrites only its own cell. -/

/-- A heap of `ConfigHolder` objects; references are allocation indices. -/
abbrev Store := List ConfigHolder

/-- Allocate a fresh holder, returning its reference. -/
def Store.alloc (s : Store) (h : ConfigHolder) : Store × Nat := (s ++ [h], s.length)

/-- Dereference (out-of-range defaults to an empty holder; the theorems
only use in-range references). -/
def Store.read (s : Store) (r : Nat) : ConfigHolder :=
  s.getD r (ConfigHolder.init [] none "configholder")

/-- Overwrite the holder a reference points at. -/
def Store.write (s : Store) (r : Nat) (h : ConfigHolder) : Store := s.set r h

/-- Heap version of `ConfigHolder.copy`: build the copied holder and
allocate it as a new object. -/
def copyOp (s : Store) (r : Nat) : Store × Nat := s.alloc ((s.read r).copy)

/-- Heap version of `__setitem__`, through a reference: the lock check, then an in-place
update of the referenced object only. -/
def setItemOp (s : Store) (r : Nat) (k : String) (v : PyVal) : Except PyErr Store :=
  match (s.read r).setitem k v with
  | .ok h' => .ok (s.write r h')
  | .error e => .error e

/-- Reading the freshly allocated cell yields the allocated holder. -/
theorem Store.read_alloc_new (s : Store) (h : ConfigHolder) :
    Store.read (s ++ [h]) s.length = h := by
  induction s with
  | nil => rfl
  | cons a s ih => simp [Store.read, List.getD, ih]

/-- Writing one cell leaves every other cell unchanged. -/
theorem Store.read_write_ne (s : Store) (i r : Nat) (h : ConfigHolder)
    (hne : r ≠ i) : Store.read (Store.write s i h) r = Store.read s r := by
  induction s generalizing i r with
  | nil => rfl
  | cons a s ih =>
    cases i with
    | zero =>
      cases r with
      | zero => exact absurd rfl hne
      | succ r => rfl
    | succ i =>
      cases r with
      | zero => rfl
      | succ r =>
        simpa [Store.write, Store.read, List.getD] using ih i r (by omega)

/-- Reading an in-range cell is unaffected by an allocation. -/
theorem Store.read_alloc_old (s : Store) (h : ConfigHolder) (r : Nat)
    (hr : r < s.length) : Store.read (s ++ [h]) r = Store.read s r := by
  induction s generalizing r with
  | nil => exact absurd hr (by simp)
  | cons a s ih =>
    cases r with
    | zero => rfl
    | succ r =>
      have := ih r (by simpa using Nat.lt_of_succ_lt_succ hr)
      simpa [Store.read, List.getD] using this

/-- C8.  `copy()` allocates a new holder with the same entries (shallow)
and the same lock state — in particular the copy of a locked holder is
locked — at a reference distinct from the original, so any subsequent
in-place mutation of either object (every mutator rewrites only its own
cell) never affects the other. -/
theorem C8_copy_independent (s : Store) (r : Nat) (hr : r < s.length) :
    (Store.read (copyOp s r).1 (copyOp s r).2).entries = (Store.read s r).entries ∧
    (Store.read (copyOp s r).1 (copyOp s r).2).locked = (Store.read s r).locked ∧
    (copyOp s r).2 ≠ r ∧
    (∀ h : ConfigHolder,
      Store.read (Store.write (copyOp s r).1 (copyOp s r).2 h) r
        = Store.read (copyOp s r).1 r) ∧
    (∀ h : ConfigHolder,
      Store.read (Store.write (copyOp s r).1 r h) (copyOp s r).2
        = Store.read (copyOp s r).1 (copyOp s r).2) := by
  have hcopy : Store.read (copyOp s r).1 (copyOp s r).2 = (Store.read s r).copy :=
    Store.read_alloc_new s _
  have hne : (copyOp s r).2 ≠ r := by
    show s.length ≠ r
    omega
  refine ⟨?_, ?_, hne, fun h => ?_, fun h => ?_⟩
  · rw [hcopy]
    cases hl : (Store.read s r).islocked <;>
      simp [ConfigHolder.copy, ConfigHolder.init, ConfigHolder.lock, hl]
  · rw [hcopy]
    cases hl : (Store.read s r).islocked <;>
      simp [ConfigHolder.copy, ConfigHolder.init, ConfigHolder.lock,
        ConfigHolder.islocked] at hl ⊢ <;> simp [hl]
  · exact Store.read_write_ne _ _ _ _ (Ne.symm hne)
  · exact Store.read_write_ne _ _ _ _ hne

/-- Witness for C8: a one-object heap holding a locked holder. -/
theorem C8_copy_independent_witness :
    (0 : Nat) < ([{ name := "c", locked := true, entries := [("a", PyVal.int 1)] }] : Store).length ∧
    (Store.read (copyOp [{ name := "c", locked := true, entries := [("a", PyVal.int 1)] }] 0).1
        (copyOp [{ name := "c", locked := true, entries := [("a", PyVal.int 1)] }] 0).2).entries
      = [("a", PyVal.int 1)] ∧
    (Store.read (copyOp [{ name := "c", locked := true, entries := [("a", PyVal.int 1)] }] 0).1
        (copyOp [{ name := "c", locked := true, entries := [("a", PyVal.int 1)] }] 0).2).locked
      = true := by
  refine ⟨by decide, ?_, ?_⟩
  · exact (C8_copy_independent
      [{ name := "c", locked := true, entries := [("a", PyVal.int 1)] }] 0 (by decide)).1
  · exact (C8_copy_independent
      [{ name := "c", locked := true, entries := [("a", PyVal.int 1)] }] 0 (by decide)).2.1

end Gitfig
